import Mathlib

/-!
Verification of the custom PoA node's consensus core
(`src/examples/custom-poa-node/src/{consensus.rs, signer.rs, chainspec.rs}`)
against its natural-language specification.

Modelling conventions:
* `u64` / `usize` values are modelled as `Nat`.  Rust's `saturating_sub` is
  exactly truncated `Nat` subtraction.  Where the source performs an
  *unchecked* subtraction that can underflow (the `usize` subtraction in
  `extract_signers_from_epoch_block`), the wrap-around of release builds is
  modelled explicitly modulo `2 ^ 64`, and the out-of-range slice panic of
  the signer loop is modelled by returning `none`.
* Byte strings are `List Nat` (each entry a byte value); a 20-byte
  `Address` is the byte list itself, as produced by `Address::from_slice`.
* The external cryptographic primitives (`keccak256 ∘ alloy_rlp::encode`,
  ECDSA signing and `recover_address_from_prehash`) are library code outside
  this repository; they are passed as explicit function parameters
  (`hashFn`, `sign`, `recover`).  The byte-level seal codec
  (`signature_to_bytes` / `bytes_to_signature` / `Signature::try_from`)
  *is* modelled concretely: fixed-width big-endian `r (32) ‖ s (32) ‖ v (1)`.
-/

namespace Poa

/-- `EXTRA_VANITY_LENGTH` from consensus.rs: vanity prefix length. -/
def EXTRA_VANITY_LENGTH : Nat := 32

/-- `EXTRA_SEAL_LENGTH` from consensus.rs: seal (signature) length. -/
def EXTRA_SEAL_LENGTH : Nat := 65

/-- `ADDRESS_LENGTH` from consensus.rs: Ethereum address length. -/
def ADDRESS_LENGTH : Nat := 20

/-- A 20-byte identity, kept as its byte list. -/
abbrev Address := List Nat

/-- The header fields the PoA core reads (`alloy_consensus::Header`).
`parent_hash` and the cached block hash are abstracted to `Nat`. -/
structure Header where
  number : Nat
  parent_hash : Nat
  timestamp : Nat
  gas_limit : Nat
  difficulty : Nat
  extra_data : List Nat
  deriving Repr, DecidableEq

/-- A `SealedHeader`: a header together with its cached block hash. -/
structure SealedHeader where
  header : Header
  hash : Nat
  deriving Repr, DecidableEq

/-- `PoaConsensusError` from consensus.rs. -/
inductive PoaConsensusError where
  | UnauthorizedSigner (signer : Address)
  | InvalidSignature
  | ExtraDataTooShort (expected got : Nat)
  | TimestampTooEarly (timestamp parent_timestamp : Nat)
  | TimestampTooFarInFuture (timestamp : Nat)
  | WrongSigner (expected got : Address)
  | InvalidDifficulty
  | InvalidSignerList
  deriving Repr, DecidableEq

/-- The `reth_consensus::ConsensusError` variants used by consensus.rs,
with `Custom` wrapping a `PoaConsensusError` (the `From` impl). -/
inductive ConsensusError where
  | ParentBlockNumberMismatch (parent_block_number block_number : Nat)
  | ParentHashMismatch (got expected : Nat)
  | GasLimitInvalidIncrease (parent_gas_limit child_gas_limit : Nat)
  | GasLimitInvalidDecrease (parent_gas_limit child_gas_limit : Nat)
  | Custom (err : PoaConsensusError)
  deriving Repr, DecidableEq

/-- `SignerError` from signer.rs. -/
inductive SignerError where
  | NoSignerForAddress (a : Address)
  | SigningFailed (msg : String)
  | InvalidPrivateKey
  deriving Repr, DecidableEq

/-- `PoaConfig` from chainspec.rs. -/
structure PoaConfig where
  period : Nat
  epoch : Nat
  signers : List Address
  deriving Repr, DecidableEq

/-- `PoaChainSpec` from chainspec.rs (only the PoA configuration is
consensus-relevant; the inner Ethereum `ChainSpec` is external). -/
structure PoaChainSpec where
  poa_config : PoaConfig
  deriving Repr, DecidableEq

/-- `PoaChainSpec::signers`. -/
def PoaChainSpec.signers (s : PoaChainSpec) : List Address :=
  s.poa_config.signers

/-- `PoaChainSpec::block_period`. -/
def PoaChainSpec.block_period (s : PoaChainSpec) : Nat :=
  s.poa_config.period

/-- `PoaChainSpec::epoch`. -/
def PoaChainSpec.epoch (s : PoaChainSpec) : Nat :=
  s.poa_config.epoch

/-- `PoaChainSpec::is_authorized_signer`: membership in the signer list. -/
def PoaChainSpec.is_authorized_signer (s : PoaChainSpec) (address : Address) : Bool :=
  s.poa_config.signers.contains address

/-- `PoaChainSpec::expected_signer`: round-robin signer for a block number.
The source returns `None` for an empty list and otherwise
`signers.get(block_number % len)`. -/
def PoaChainSpec.expected_signer (s : PoaChainSpec) (block_number : Nat) : Option Address :=
  if s.poa_config.signers.isEmpty then none
  else s.poa_config.signers.get? (block_number % s.poa_config.signers.length)

/-- Big-endian fixed-width byte encoding (`to_be_bytes::<32>()`). -/
def natToBeBytes : Nat → Nat → List Nat
  | 0, _ => []
  | w + 1, x => natToBeBytes w (x / 256) ++ [x % 256]

/-- Big-endian byte decoding (`U256::from_be_slice`). -/
def beBytesToNat : List Nat → Nat
  | [] => 0
  | b :: bs => b * 256 ^ bs.length + beBytesToNat bs

/-- An ECDSA signature as alloy stores it: `r`, `s` (256-bit words) and the
recovery parity bit `v`. -/
structure Signature where
  r : Nat
  s : Nat
  v : Bool
  deriving Repr, DecidableEq

/-- `signature_to_bytes` (signer.rs): `r (32 BE) ‖ s (32 BE) ‖ v as u8`. -/
def signature_to_bytes (sig : Signature) : List Nat :=
  natToBeBytes 32 sig.r ++ natToBeBytes 32 sig.s ++ [if sig.v then 1 else 0]

/-- Parity parsing of the recovery byte as alloy `Signature::try_from`
accepts it: `0`/`27` even, `1`/`28` odd, anything else rejected. -/
def parseParity : Nat → Option Bool
  | 0 => some false
  | 1 => some true
  | 27 => some false
  | 28 => some true
  | _ => none

/-- alloy `Signature::try_from(&[u8])` (external library, modelled at the
byte level): requires 65 bytes laid out `r ‖ s ‖ v`. -/
def Signature.try_from (bytes : List Nat) : Except String Signature :=
  if bytes.length = 65 then
    match parseParity (bytes.getD 64 0) with
    | some v =>
        .ok { r := beBytesToNat (bytes.take 32)
            , s := beBytesToNat ((bytes.drop 32).take 32)
            , v := v }
    | none => .error "invalid parity byte"
  else .error "invalid signature length"

/-- `bytes_to_signature` (signer.rs): explicit length check, then
`Signature::try_from`. -/
def bytes_to_signature (bytes : List Nat) : Except String Signature :=
  if bytes.length ≠ 65 then .error "invalid signature length"
  else Signature.try_from bytes

/-- `SignerManager` (signer.rs): a map from address to private signing key,
modelled as an association list over an abstract key type `SK`. -/
structure SignerManager (SK : Type) where
  signers : List (Address × SK)

/-- `SignerManager::sign_hash` (signer.rs): look the key up, fail with
`NoSignerForAddress` if absent, otherwise sign the hash.  Local-key signing
over a fixed-size hash is modelled as total (`sign` is the external ECDSA
signing function). -/
def SignerManager.sign_hash {SK : Type} (sign : SK → Nat → Signature)
    (m : SignerManager SK) (address : Address) (hash : Nat) :
    Except SignerError Signature :=
  match m.signers.lookup address with
  | none => .error (.NoSignerForAddress address)
  | some sk => .ok (sign sk hash)

/-- `BlockSealer::seal_hash` (signer.rs): hash the header with the trailing
65 seal bytes stripped from `extra_data` when present; `hashFn` stands for
the external `keccak256 ∘ alloy_rlp::encode`. -/
def BlockSealer.seal_hash (hashFn : Header → Nat) (header : Header) : Nat :=
  let extra_data := header.extra_data
  let stripped :=
    if EXTRA_SEAL_LENGTH ≤ extra_data.length then
      extra_data.take (extra_data.length - EXTRA_SEAL_LENGTH)
    else extra_data
  hashFn { header with extra_data := stripped }

/-- `BlockSealer::seal_header` (signer.rs): sign the seal hash, truncate any
existing trailing 65 bytes of `extra_data`, append the new 65-byte seal. -/
def BlockSealer.seal_header {SK : Type} (hashFn : Header → Nat)
    (sign : SK → Nat → Signature) (m : SignerManager SK)
    (header : Header) (signer_address : Address) :
    Except SignerError Header :=
  let seal_hash := BlockSealer.seal_hash hashFn header
  match m.sign_hash sign signer_address seal_hash with
  | .error e => .error e
  | .ok signature =>
    let sig_bytes := signature_to_bytes signature
    let extra_data := header.extra_data
    let truncated :=
      if EXTRA_SEAL_LENGTH ≤ extra_data.length then
        extra_data.take (extra_data.length - EXTRA_SEAL_LENGTH)
      else extra_data
    .ok { header with extra_data := truncated ++ sig_bytes }

/-- `BlockSealer::verify_signature` (signer.rs): decode the trailing 65
bytes as a signature and recover the signer from the seal hash; `recover`
stands for the external `Signature::recover_address_from_prehash`. -/
def BlockSealer.verify_signature (hashFn : Header → Nat)
    (recover : Signature → Nat → Except String Address) (header : Header) :
    Except SignerError Address :=
  let seal_hash := BlockSealer.seal_hash hashFn header
  let extra_data := header.extra_data
  if extra_data.length < EXTRA_SEAL_LENGTH then
    .error (.SigningFailed "Extra data too short")
  else
    match bytes_to_signature (extra_data.drop (extra_data.length - EXTRA_SEAL_LENGTH)) with
    | .error e => .error (.SigningFailed e)
    | .ok signature =>
      match recover signature seal_hash with
      | .error e => .error (.SigningFailed e)
      | .ok a => .ok a

/-- `PoaConsensus::seal_hash` (consensus.rs); same logic as
`BlockSealer::seal_hash` but translated separately from its own source. -/
def PoaConsensus.seal_hash (hashFn : Header → Nat) (header : Header) : Nat :=
  let extra_data := header.extra_data
  let stripped :=
    if EXTRA_SEAL_LENGTH ≤ extra_data.length then
      extra_data.take (extra_data.length - EXTRA_SEAL_LENGTH)
    else extra_data
  hashFn { header with extra_data := stripped }

/-- `PoaConsensus::recover_signer` (consensus.rs): require
`len(extra_data) ≥ EXTRA_VANITY_LENGTH + EXTRA_SEAL_LENGTH`, parse the
trailing 65 bytes with `Signature::try_from`, recover from the seal hash. -/
def PoaConsensus.recover_signer (hashFn : Header → Nat)
    (recover : Signature → Nat → Except String Address) (header : Header) :
    Except PoaConsensusError Address :=
  let extra_data := header.extra_data
  let min_length := EXTRA_VANITY_LENGTH + EXTRA_SEAL_LENGTH
  if extra_data.length < min_length then
    .error (.ExtraDataTooShort min_length extra_data.length)
  else
    match Signature.try_from (extra_data.drop (extra_data.length - EXTRA_SEAL_LENGTH)) with
    | .error _ => .error .InvalidSignature
    | .ok signature =>
      let seal_hash := PoaConsensus.seal_hash hashFn header
      match recover signature seal_hash with
      | .error _ => .error .InvalidSignature
      | .ok a => .ok a

/-- `PoaConsensus::validate_signer` (consensus.rs, marked
`#[allow(dead_code)]` — not called from the validation path): reject a
signer outside the authorized list. -/
def PoaConsensus.validate_signer (spec : PoaChainSpec) (signer : Address) :
    Except PoaConsensusError Unit :=
  if spec.is_authorized_signer signer then .ok ()
  else .error (.UnauthorizedSigner signer)

/-- `PoaConsensus::is_epoch_block` (consensus.rs). -/
def PoaConsensus.is_epoch_block (spec : PoaChainSpec) (block_number : Nat) : Bool :=
  block_number % spec.epoch == 0

/-- `PoaConsensus::validate_difficulty` (consensus.rs, marked
`#[allow(dead_code)]` — not called from the validation path): difficulty
must be 1 for the in-turn signer and 2 otherwise. -/
def PoaConsensus.validate_difficulty (spec : PoaChainSpec)
    (header : Header) (signer : Address) : Except PoaConsensusError Unit :=
  let expected_signer := spec.expected_signer header.number
  let expected_difficulty := if expected_signer = some signer then 1 else 2
  if header.difficulty ≠ expected_difficulty then .error .InvalidDifficulty
  else .ok ()

/-- `usize::MAX + 1`: unchecked `usize` arithmetic wraps modulo this in
release builds. -/
def USIZE_MOD : Nat := 2 ^ 64

/-- `PoaConsensus::extract_signers_from_epoch_block` (consensus.rs).  The
source computes `extra_data.len() - EXTRA_VANITY_LENGTH - EXTRA_SEAL_LENGTH`
on `usize` with no length check, so for `len(extra_data) < 97` the
subtraction underflows; the wrap-around of release builds is modelled by the
explicit `% USIZE_MOD`.  The signer loop slices `extra_data[start..end]`,
and an out-of-range slice panics; a panic (in either build mode) is
modelled as `none`. -/
def PoaConsensus.extract_signers_from_epoch_block (header : Header) :
    Option (Except PoaConsensusError (List Address)) :=
  let extra_data := header.extra_data
  let signers_data_len :=
    (extra_data.length + USIZE_MOD - (EXTRA_VANITY_LENGTH + EXTRA_SEAL_LENGTH)) % USIZE_MOD
  if signers_data_len % ADDRESS_LENGTH ≠ 0 then
    some (.error .InvalidSignerList)
  else
    let num_signers := signers_data_len / ADDRESS_LENGTH
    if num_signers = 0 ∨
        EXTRA_VANITY_LENGTH + num_signers * ADDRESS_LENGTH ≤ extra_data.length then
      some (.ok ((List.range num_signers).map (fun i =>
        (extra_data.drop (EXTRA_VANITY_LENGTH + i * ADDRESS_LENGTH)).take ADDRESS_LENGTH)))
    else none

/-- `HeaderValidator::validate_header_against_parent` for `PoaConsensus`
(consensus.rs): block-number linkage, parent-hash linkage, minimum
timestamp, then EIP-1559-style gas-limit drift.  `saturating_sub` is
truncated `Nat` subtraction. -/
def PoaConsensus.validate_header_against_parent (spec : PoaChainSpec)
    (header parent : SealedHeader) : Except ConsensusError Unit :=
  if header.header.number ≠ parent.header.number + 1 then
    .error (.ParentBlockNumberMismatch parent.header.number header.header.number)
  else if header.header.parent_hash ≠ parent.hash then
    .error (.ParentHashMismatch header.header.parent_hash parent.hash)
  else
    let min_timestamp := parent.header.timestamp + spec.block_period
    if header.header.timestamp < min_timestamp then
      .error (.Custom (.TimestampTooEarly header.header.timestamp parent.header.timestamp))
    else
      let parent_gas_limit := parent.header.gas_limit
      let current_gas_limit := header.header.gas_limit
      let max_change := parent_gas_limit / 1024
      if current_gas_limit > parent_gas_limit + max_change then
        .error (.GasLimitInvalidIncrease parent_gas_limit current_gas_limit)
      else if current_gas_limit < parent_gas_limit - max_change then
        .error (.GasLimitInvalidDecrease parent_gas_limit current_gas_limit)
      else .ok ()

/-- The specification's description of the seal-hash input (spec §4.2): the
header with the last 65 bytes of `extra_data` removed when
`len(extra_data) ≥ 65`, unmodified otherwise. -/
def stripSealSpec (header : Header) : Header :=
  if 65 ≤ header.extra_data.length then
    { header with extra_data := header.extra_data.take (header.extra_data.length - 65) }
  else header

/-- The header a successful `seal_header` produces: every field kept, and
`extra_data` replaced by the seal-stripped prefix followed by the fresh
65-byte seal over the original seal hash. -/
def sealedWith {SK : Type} (hashFn : Header → Nat) (sign : SK → Nat → Signature)
    (header : Header) (sk : SK) : Header :=
  { header with extra_data := (stripSealSpec header).extra_data ++
      signature_to_bytes (sign sk (BlockSealer.seal_hash hashFn header)) }

/-- The chain spec used in concrete test scenarios: three signers, period 2
(the `test_round_robin_signer` configuration of chainspec.rs). -/
def addr1 : Address := List.replicate 19 0 ++ [1]

/-- Second test address. -/
def addr2 : Address := List.replicate 19 0 ++ [2]

/-- Third test address. -/
def addr3 : Address := List.replicate 19 0 ++ [3]

/-- Concrete three-signer chain spec (signers A, B, C; period 2; epoch 30000). -/
def devSpec3 : PoaChainSpec :=
  { poa_config := { period := 2, epoch := 30000, signers := [addr1, addr2, addr3] } }

/-- Concrete stand-in for the RLP+keccak hash used in witnesses and
counterexamples (instantiating the `hashFn` parameter). -/
def hashFn0 : Header → Nat := fun h => h.extra_data.length + h.number

/-- Concrete recovery function for witnesses and counterexamples: every
structurally valid signature recovers to `addr1`. -/
def recover0 : Signature → Nat → Except String Address := fun _ _ => .ok addr1

/-- Concrete recovery function recovering everything to `addr2`. -/
def recover2 : Signature → Nat → Except String Address := fun _ _ => .ok addr2

/-- Concrete signing function for witnesses. -/
def sign0 : Unit → Nat → Signature := fun _ _ => { r := 3, s := 4, v := true }

/-- Concrete key store holding a single key for `addr1`. -/
def store0 : SignerManager Unit := { signers := [(addr1, ())] }

/-- Concrete accepted parent: block 0, timestamp 100, gas limit 1024,
cached block hash 7. -/
def parent0 : SealedHeader :=
  { header := { number := 0, parent_hash := 0, timestamp := 100, gas_limit := 1024,
                difficulty := 1, extra_data := List.replicate 32 0 }
  , hash := 7 }

/-- Concrete candidate child of `parent0` with chosen timestamp, gas limit
and difficulty; its metadata is a bare 32-byte vanity prefix (no seal). -/
def childHeader (ts gas diff : Nat) : SealedHeader :=
  { header := { number := 1, parent_hash := 7, timestamp := ts, gas_limit := gas,
                difficulty := diff, extra_data := List.replicate 32 0 }
  , hash := 8 }

/-- Concrete candidate child of `parent0` carrying a 97-byte metadata field
(32-byte vanity plus an all-zero 65-byte seal) and a chosen difficulty. -/
def childSealed97 (diff : Nat) : SealedHeader :=
  { header := { number := 1, parent_hash := 7, timestamp := 102, gas_limit := 1024,
                difficulty := diff, extra_data := List.replicate 97 0 }
  , hash := 8 }

/-- Header whose metadata is 65 bytes: a seal with no vanity prefix. -/
def hdr65 : Header :=
  { number := 1, parent_hash := 7, timestamp := 102, gas_limit := 1024,
    difficulty := 1, extra_data := List.replicate 65 0 }

/-- Header whose metadata is the minimal 97 bytes. -/
def hdr97 : Header :=
  { number := 1, parent_hash := 7, timestamp := 102, gas_limit := 1024,
    difficulty := 1, extra_data := List.replicate 97 0 }

/-- Header with empty metadata (pre-seal, no vanity). -/
def emptyExtraHeader : Header :=
  { number := 1, parent_hash := 7, timestamp := 102, gas_limit := 1024,
    difficulty := 1, extra_data := [] }

/-- `emptyExtraHeader` after sealing with `addr1`'s key under the concrete
scheme: a bare 65-byte seal, no vanity. -/
def sealedEmptyExtra : Header :=
  { emptyExtraHeader with
    extra_data := signature_to_bytes (sign0 () (BlockSealer.seal_hash hashFn0 emptyExtraHeader)) }

/-- Header with a 32-byte vanity prefix and no seal yet. -/
def vanityHeader : Header :=
  { number := 1, parent_hash := 7, timestamp := 102, gas_limit := 1024,
    difficulty := 1, extra_data := List.replicate 32 0 }

/-- `vanityHeader` sealed once under the concrete scheme. -/
def sealedVanity1 : Header :=
  { vanityHeader with
    extra_data := List.replicate 32 0 ++
      signature_to_bytes (sign0 () (BlockSealer.seal_hash hashFn0 vanityHeader)) }

/-- `sealedVanity1` sealed a second time under the concrete scheme. -/
def sealedVanity2 : Header :=
  { sealedVanity1 with
    extra_data := List.replicate 32 0 ++
      signature_to_bytes (sign0 () (BlockSealer.seal_hash hashFn0 sealedVanity1)) }

/-- Header with 21 bytes of metadata (shorter than vanity + seal). -/
def hdrExtra21 : Header :=
  { number := 0, parent_hash := 0, timestamp := 0, gas_limit := 0,
    difficulty := 0, extra_data := List.replicate 21 0 }

/-- Header with 100 bytes of metadata (`100 - 97 = 3` is not a multiple
of 20). -/
def hdrExtra100 : Header :=
  { number := 0, parent_hash := 0, timestamp := 0, gas_limit := 0,
    difficulty := 0, extra_data := List.replicate 100 0 }

/-- Header with 137 bytes of metadata: 32-byte vanity, the identities
`addr1` and `addr2`, then a 65-byte seal. -/
def hdrExtra137 : Header :=
  { number := 0, parent_hash := 0, timestamp := 0, gas_limit := 0,
    difficulty := 0, extra_data := List.replicate 32 9 ++ addr1 ++ addr2 ++ List.replicate 65 7 }

/-- Fixed-width big-endian encoding has exactly the requested width. -/
theorem natToBeBytes_length (w x : Nat) : (natToBeBytes w x).length = w := by
  induction w generalizing x with
  | zero => rfl
  | succ w ih => simp [natToBeBytes, ih]

/-- Taking an appended list at the length of its left part. -/
theorem take_append_length {α : Type} (A B : List α) (n : Nat) (h : A.length = n) :
    (A ++ B).take n = A := by
  subst h; exact List.take_left A B

/-- Dropping an appended list at the length of its left part. -/
theorem drop_append_length {α : Type} (A B : List α) (n : Nat) (h : A.length = n) :
    (A ++ B).drop n = B := by
  subst h; exact List.drop_left A B

/-- Decoding after appending a final byte. -/
theorem beBytesToNat_append (l : List Nat) (b : Nat) :
    beBytesToNat (l ++ [b]) = beBytesToNat l * 256 + b := by
  induction l with
  | nil => simp [beBytesToNat]
  | cons a l ih =>
    show a * 256 ^ (l ++ [b]).length + beBytesToNat (l ++ [b]) =
      (a * 256 ^ l.length + beBytesToNat l) * 256 + b
    rw [ih, List.length_append]
    simp only [List.length_cons, List.length_nil]
    ring

/-- Big-endian encode/decode round trip below the width bound. -/
theorem beBytesToNat_natToBeBytes (w x : Nat) (h : x < 256 ^ w) :
    beBytesToNat (natToBeBytes w x) = x := by
  induction w generalizing x with
  | zero =>
    interval_cases x
    rfl
  | succ w ih =>
    have hdiv : x / 256 < 256 ^ w := by
      apply Nat.div_lt_of_lt_mul
      calc x < 256 ^ (w + 1) := h
        _ = 256 * 256 ^ w := by ring
    have hmod := Nat.div_add_mod x 256
    simp only [natToBeBytes, beBytesToNat_append, ih _ hdiv]
    omega

/-- A serialized signature is exactly 65 bytes. -/
theorem signature_to_bytes_length (sig : Signature) :
    (signature_to_bytes sig).length = 65 := by
  simp [signature_to_bytes, natToBeBytes_length]

/-- `Signature::try_from` undoes `signature_to_bytes` for in-range `r`, `s`. -/
theorem try_from_signature_to_bytes (sig : Signature)
    (hr : sig.r < 256 ^ 32) (hs : sig.s < 256 ^ 32) :
    Signature.try_from (signature_to_bytes sig) = .ok sig := by
  obtain ⟨r, s, v⟩ := sig
  have hlen := signature_to_bytes_length ⟨r, s, v⟩
  have htake : (signature_to_bytes ⟨r, s, v⟩).take 32 = natToBeBytes 32 r := by
    rw [signature_to_bytes, List.append_assoc]
    exact take_append_length _ _ _ (natToBeBytes_length 32 r)
  have hdrop32 : (signature_to_bytes ⟨r, s, v⟩).drop 32 =
      natToBeBytes 32 s ++ [if v then 1 else 0] := by
    rw [signature_to_bytes, List.append_assoc]
    exact drop_append_length _ _ _ (natToBeBytes_length 32 r)
  have hdrop : ((signature_to_bytes ⟨r, s, v⟩).drop 32).take 32 = natToBeBytes 32 s := by
    rw [hdrop32]
    exact take_append_length _ _ _ (natToBeBytes_length 32 s)
  have hdrop64 : (signature_to_bytes ⟨r, s, v⟩).drop 64 = [if v then 1 else 0] := by
    rw [signature_to_bytes]
    exact drop_append_length _ _ _ (by simp [natToBeBytes_length])
  have hv : (signature_to_bytes ⟨r, s, v⟩).getD 64 0 = if v then 1 else 0 := by
    have h0 : (signature_to_bytes ⟨r, s, v⟩).getD 64 0 =
        ((signature_to_bytes ⟨r, s, v⟩).drop 64).getD 0 0 := by
      rw [List.getD_eq_getElem?_getD, List.getD_eq_getElem?_getD, List.getElem?_drop]
    rw [h0, hdrop64]
    rfl
  unfold Signature.try_from
  rw [hlen, if_pos rfl, hv, htake, hdrop,
    beBytesToNat_natToBeBytes 32 r hr, beBytesToNat_natToBeBytes 32 s hs]
  cases v <;> rfl

/-- The two seal-hash implementations are the same function. -/
theorem seal_hash_impls_eq (hashFn : Header → Nat) (header : Header) :
    PoaConsensus.seal_hash hashFn header = BlockSealer.seal_hash hashFn header := rfl

/-- `seal_hash` computes the hash of the seal-stripped header. -/
theorem seal_hash_eq_strip (hashFn : Header → Nat) (header : Header) :
    BlockSealer.seal_hash hashFn header = hashFn (stripSealSpec header) := by
  unfold BlockSealer.seal_hash stripSealSpec EXTRA_SEAL_LENGTH
  by_cases h : 65 ≤ header.extra_data.length <;> simp [h]

/-- Appending a 65-byte seal to some prefix makes `seal_hash` hash exactly
that prefix. -/
theorem seal_hash_append (hashFn : Header → Nat) (header : Header)
    (t s : List Nat) (hs : s.length = 65) :
    BlockSealer.seal_hash hashFn { header with extra_data := t ++ s } =
      hashFn { header with extra_data := t } := by
  simp only [BlockSealer.seal_hash, EXTRA_SEAL_LENGTH]
  have hlen : (t ++ s).length = t.length + 65 := by simp [hs]
  rw [hlen, if_pos (by omega : 65 ≤ t.length + 65),
    (by omega : t.length + 65 - 65 = t.length), take_append_length t s t.length rfl]

/-- `stripSealSpec` only rewrites the `extra_data` field. -/
theorem stripSealSpec_update (header : Header) :
    { header with extra_data := (stripSealSpec header).extra_data } =
      stripSealSpec header := by
  unfold stripSealSpec
  by_cases h : 65 ≤ header.extra_data.length <;> simp [h]

/-- Characterization of a successful `seal_header`: with the key present,
the result keeps every field and replaces `extra_data` by the seal-stripped
prefix followed by the fresh 65-byte seal. -/
theorem seal_header_ok {SK : Type} (hashFn : Header → Nat)
    (sign : SK → Nat → Signature) (m : SignerManager SK)
    (header : Header) (id : Address) (sk : SK)
    (hlookup : m.signers.lookup id = some sk) :
    BlockSealer.seal_header hashFn sign m header id =
      .ok (sealedWith hashFn sign header sk) := by
  unfold BlockSealer.seal_header SignerManager.sign_hash
  rw [hlookup]
  unfold sealedWith stripSealSpec EXTRA_SEAL_LENGTH
  by_cases h : 65 ≤ header.extra_data.length <;> simp [h]

/-- The `extra_data` of a once-sealed header, literally. -/
theorem sealedWith_extra_data {SK : Type} (hashFn : Header → Nat)
    (sign : SK → Nat → Signature) (header : Header) (sk : SK) :
    (sealedWith hashFn sign header sk).extra_data =
      (stripSealSpec header).extra_data ++
        signature_to_bytes (sign sk (BlockSealer.seal_hash hashFn header)) := rfl

/-- Stripping the seal from a prefix-plus-65-byte-seal metadata field
recovers the prefix. -/
theorem stripSealSpec_append (header : Header) (t s : List Nat) (hs : s.length = 65) :
    (stripSealSpec { header with extra_data := t ++ s }).extra_data = t := by
  simp only [stripSealSpec]
  have hlen : (t ++ s).length = t.length + 65 := by simp [hs]
  rw [hlen, if_pos (by omega : 65 ≤ t.length + 65),
    (by omega : t.length + 65 - 65 = t.length), take_append_length t s t.length rfl]

/-- Stripping the seal from a sealed header recovers the stripped prefix of
the original header. -/
theorem stripSealSpec_sealedWith {SK : Type} (hashFn : Header → Nat)
    (sign : SK → Nat → Signature) (header : Header) (sk : SK) :
    (stripSealSpec (sealedWith hashFn sign header sk)).extra_data =
      (stripSealSpec header).extra_data := by
  simp only [sealedWith]
  exact stripSealSpec_append header _ _ (signature_to_bytes_length _)

/-- The seal hash of a sealed header hashes the original stripped prefix. -/
theorem seal_hash_sealedWith {SK : Type} (hashFn : Header → Nat)
    (sign : SK → Nat → Signature) (header : Header) (sk : SK) :
    BlockSealer.seal_hash hashFn (sealedWith hashFn sign header sk) =
      BlockSealer.seal_hash hashFn header := by
  simp only [sealedWith]
  rw [seal_hash_append hashFn header _ _ (signature_to_bytes_length _),
    stripSealSpec_update]
  exact (seal_hash_eq_strip hashFn header).symm

/-- `PoaConsensus::recover_signer` on a header with enough metadata:
parse the trailing 65 bytes, then recover over the seal hash. -/
theorem recover_signer_eq (hashFn : Header → Nat)
    (recover : Signature → Nat → Except String Address) (header : Header)
    (hlen : 97 ≤ header.extra_data.length) :
    PoaConsensus.recover_signer hashFn recover header =
      match Signature.try_from
          (header.extra_data.drop (header.extra_data.length - 65)) with
      | .error _ => .error .InvalidSignature
      | .ok sig =>
        match recover sig (BlockSealer.seal_hash hashFn header) with
        | .error _ => .error .InvalidSignature
        | .ok a => .ok a := by
  simp only [PoaConsensus.recover_signer, EXTRA_VANITY_LENGTH, EXTRA_SEAL_LENGTH]
  rw [if_neg (by omega)]
  rfl

/-- `BlockSealer::verify_signature` on a header with at least a seal:
parse the trailing 65 bytes, then recover over the seal hash. -/
theorem verify_signature_eq (hashFn : Header → Nat)
    (recover : Signature → Nat → Except String Address) (header : Header)
    (hlen : 65 ≤ header.extra_data.length) :
    BlockSealer.verify_signature hashFn recover header =
      match Signature.try_from
          (header.extra_data.drop (header.extra_data.length - 65)) with
      | .error e => .error (.SigningFailed e)
      | .ok sig =>
        match recover sig (BlockSealer.seal_hash hashFn header) with
        | .error e => .error (.SigningFailed e)
        | .ok a => .ok a := by
  have hdl : (header.extra_data.drop (header.extra_data.length - 65)).length = 65 := by
    rw [List.length_drop]; omega
  simp only [BlockSealer.verify_signature, EXTRA_SEAL_LENGTH, bytes_to_signature, hdl]
  rw [if_neg (Nat.not_lt.mpr hlen)]
  simp

/-- `expected_signer` is `some` of the entry at index `n % len` whenever
the signer list is non-empty. -/
theorem expected_signer_nonempty (s : PoaChainSpec) (n : Nat)
    (h : s.poa_config.signers ≠ []) :
    s.expected_signer n =
      some (s.poa_config.signers.getD (n % s.poa_config.signers.length) []) := by
  unfold PoaChainSpec.expected_signer
  have hne : s.poa_config.signers.isEmpty = false := by
    simpa [List.isEmpty_iff] using h
  have hlen : 0 < s.poa_config.signers.length := List.length_pos.mpr h
  have hlt : n % s.poa_config.signers.length < s.poa_config.signers.length :=
    Nat.mod_lt _ hlen
  simp [hne, List.getD, List.getElem?_eq_getElem hlt]

/-- C4: `expected_signer(n)` is `none` iff the signer list is empty; on a
non-empty signer list of length `k` it is `some` of the signer at index
`n % k`; and it is periodic: `expected_signer(n) = expected_signer(n + k)`. -/
theorem C4_expected_signer_round_robin (s : PoaChainSpec) (n : Nat) :
    (s.expected_signer n = none ↔ s.poa_config.signers = []) ∧
    (s.poa_config.signers ≠ [] →
      s.expected_signer n =
        some (s.poa_config.signers.getD (n % s.poa_config.signers.length) [])) ∧
    s.expected_signer n = s.expected_signer (n + s.poa_config.signers.length) := by
  refine ⟨⟨?_, ?_⟩, expected_signer_nonempty s n, ?_⟩
  · intro h
    by_contra hne
    rw [expected_signer_nonempty s n hne] at h
    exact Option.noConfusion h
  · intro h
    simp [PoaChainSpec.expected_signer, h]
  · by_cases h : s.poa_config.signers = []
    · simp [PoaChainSpec.expected_signer, h]
    · rw [expected_signer_nonempty s n h, expected_signer_nonempty s _ h,
        Nat.add_mod_right]

/-- Witness for C4 at the three-signer dev spec and block number 1. -/
theorem C4_expected_signer_round_robin_witness :
    devSpec3.poa_config.signers ≠ [] ∧
    devSpec3.expected_signer 1 =
      some (devSpec3.poa_config.signers.getD (1 % devSpec3.poa_config.signers.length) []) :=
  ⟨by decide, (C4_expected_signer_round_robin devSpec3 1).2.1 (by decide)⟩

/-- C8: once the block-number and parent-hash linkage checks pass,
validation fails with `TimestampTooEarly` exactly when
`header.timestamp < parent.timestamp + period`. -/
theorem C8_timestamp_too_early (spec : PoaChainSpec) (header parent : SealedHeader)
    (hnum : header.header.number = parent.header.number + 1)
    (hhash : header.header.parent_hash = parent.hash) :
    PoaConsensus.validate_header_against_parent spec header parent =
        .error (.Custom (.TimestampTooEarly header.header.timestamp
          parent.header.timestamp)) ↔
      header.header.timestamp < parent.header.timestamp + spec.block_period := by
  simp only [PoaConsensus.validate_header_against_parent, hnum, hhash]
  split_ifs <;> simp_all

/-- Witness for C8: child of `parent0` at timestamp 101 < 100 + 2. -/
theorem C8_timestamp_too_early_witness :
    PoaConsensus.validate_header_against_parent devSpec3 (childHeader 101 1024 1) parent0 =
      .error (.Custom (.TimestampTooEarly 101 100)) :=
  (C8_timestamp_too_early devSpec3 (childHeader 101 1024 1) parent0 rfl rfl).mpr
    (by decide)

/-- C7: once the block-number, parent-hash and timestamp checks pass,
validation fails with `GasLimitInvalidIncrease` iff the gas limit exceeds
`parent + parent / 1024`, with `GasLimitInvalidDecrease` iff it is below
`parent - parent / 1024` (saturating at zero), and accepts iff it lies in
that window. -/
theorem C7_gas_limit_drift (spec : PoaChainSpec) (header parent : SealedHeader)
    (hnum : header.header.number = parent.header.number + 1)
    (hhash : header.header.parent_hash = parent.hash)
    (hts : parent.header.timestamp + spec.block_period ≤ header.header.timestamp) :
    (PoaConsensus.validate_header_against_parent spec header parent =
        .error (.GasLimitInvalidIncrease parent.header.gas_limit
          header.header.gas_limit) ↔
      parent.header.gas_limit + parent.header.gas_limit / 1024 <
        header.header.gas_limit) ∧
    (PoaConsensus.validate_header_against_parent spec header parent =
        .error (.GasLimitInvalidDecrease parent.header.gas_limit
          header.header.gas_limit) ↔
      header.header.gas_limit <
        parent.header.gas_limit - parent.header.gas_limit / 1024) ∧
    (PoaConsensus.validate_header_against_parent spec header parent = .ok () ↔
      (header.header.gas_limit ≤
          parent.header.gas_limit + parent.header.gas_limit / 1024 ∧
        parent.header.gas_limit - parent.header.gas_limit / 1024 ≤
          header.header.gas_limit)) := by
  have hts2 : ¬ header.header.timestamp < parent.header.timestamp + spec.block_period :=
    Nat.not_lt.mpr hts
  simp only [PoaConsensus.validate_header_against_parent, hnum, hhash, hts2]
  refine ⟨?_, ?_, ?_⟩ <;> split_ifs <;> simp_all <;> omega

/-- Witness for C7: with `parent.gas_limit = 1024` the gas limit 1026 is
rejected with `GasLimitInvalidIncrease`. -/
theorem C7_gas_limit_drift_witness :
    PoaConsensus.validate_header_against_parent devSpec3 (childHeader 102 1026 1) parent0 =
      .error (.GasLimitInvalidIncrease 1024 1026) :=
  ((C7_gas_limit_drift devSpec3 (childHeader 102 1026 1) parent0 rfl rfl
    (by decide)).1).mpr (by decide)

/-- C5: `seal_hash(header)` is the hash of the header with the last 65
bytes of `extra_data` removed when `len ≥ 65` and of the unmodified header
otherwise, and it never depends on the trailing 65 seal bytes. -/
theorem C5_seal_hash_strips_seal (hashFn : Header → Nat) (header : Header) :
    BlockSealer.seal_hash hashFn header = hashFn (stripSealSpec header) ∧
    ∀ (t s₁ s₂ : List Nat), s₁.length = 65 → s₂.length = 65 →
      BlockSealer.seal_hash hashFn { header with extra_data := t ++ s₁ } =
        BlockSealer.seal_hash hashFn { header with extra_data := t ++ s₂ } := by
  refine ⟨seal_hash_eq_strip hashFn header, ?_⟩
  intro t s₁ s₂ h₁ h₂
  rw [seal_hash_append hashFn header t s₁ h₁, seal_hash_append hashFn header t s₂ h₂]

/-- Witness for C5: two different 65-byte seals over the same prefix give
the same seal hash under a hash function that reads the whole header. -/
theorem C5_seal_hash_strips_seal_witness :
    BlockSealer.seal_hash hashFn0
        { vanityHeader with extra_data := List.replicate 32 0 ++ List.replicate 65 1 } =
      BlockSealer.seal_hash hashFn0
        { vanityHeader with extra_data := List.replicate 32 0 ++ List.replicate 65 2 } :=
  (C5_seal_hash_strips_seal hashFn0 vanityHeader).2
    (List.replicate 32 0) (List.replicate 65 1) (List.replicate 65 2)
    (by decide) (by decide)

set_option maxRecDepth 4096 in
/-- C3 (code bug): on metadata of length 21 (< 97) the `usize` subtraction
in `extract_signers_from_epoch_block` underflows and the signer loop
panics (`none`) instead of failing with `InvalidSignerList`; on metadata of
length 100 (where `100 - 97 = 3` is not a multiple of 20) it fails with
`InvalidSignerList`; and on the 137-byte metadata embedding `addr1` and
`addr2` it returns exactly those two identities in order. -/
theorem C3_extract_signers_behaviour :
    PoaConsensus.extract_signers_from_epoch_block hdrExtra21 = none ∧
    PoaConsensus.extract_signers_from_epoch_block hdrExtra100 =
      some (.error .InvalidSignerList) ∧
    PoaConsensus.extract_signers_from_epoch_block hdrExtra137 =
      some (.ok [addr1, addr2]) :=
  ⟨rfl, rfl, rfl⟩

/-- C1 (code bug): `validate_header_against_parent` accepts a candidate
carrying no seal at all (on which `recover_signer` cannot even run), and
can never return `UnauthorizedSigner`: the authorization check exists only
in the dead-code helper `validate_signer`. -/
theorem C1_no_authorization_check :
    PoaConsensus.validate_header_against_parent devSpec3 (childHeader 102 1024 1) parent0 =
      .ok () ∧
    PoaConsensus.recover_signer hashFn0 recover0 (childHeader 102 1024 1).header =
      .error (.ExtraDataTooShort 97 32) ∧
    (∀ (spec : PoaChainSpec) (header parent : SealedHeader) (signer : Address),
      PoaConsensus.validate_header_against_parent spec header parent ≠
        .error (.Custom (.UnauthorizedSigner signer))) := by
  refine ⟨rfl, rfl, ?_⟩
  intro spec header parent signer h
  simp only [PoaConsensus.validate_header_against_parent] at h
  split_ifs at h <;> simp_all

/-- C6 counterexample: signers `[addr1, addr2, addr3]`, block number 1; the
seal of `childSealed97 2` recovers (under `recover2`) to the in-turn signer
`addr2`, the header carries difficulty 2, yet validation accepts it — the
claim requires an `InvalidDifficulty` failure for an in-turn signer with
difficulty 2. -/
theorem C6_counterexample :
    devSpec3.expected_signer 1 = some addr2 ∧
    PoaConsensus.recover_signer hashFn0 recover2 (childSealed97 2).header = .ok addr2 ∧
    (childSealed97 2).header.difficulty = 2 ∧
    PoaConsensus.validate_header_against_parent devSpec3 (childSealed97 2) parent0 =
      .ok () :=
  ⟨rfl, rfl, rfl, rfl⟩

/-- C6 (amended): the difficulty rule (1 for the in-turn signer, 2
otherwise, `InvalidDifficulty` on mismatch) is enforced only by the
dead-code helper `validate_difficulty`; the validation path
`validate_header_against_parent` never reads the difficulty field. -/
theorem C6_difficulty_rule :
    (∀ (spec : PoaChainSpec) (header : Header) (signer : Address),
      PoaConsensus.validate_difficulty spec header signer =
        if header.difficulty =
            (if spec.expected_signer header.number = some signer then 1 else 2)
        then .ok () else .error .InvalidDifficulty) ∧
    (∀ (spec : PoaChainSpec) (header parent : SealedHeader) (d : Nat),
      PoaConsensus.validate_header_against_parent spec
          { header with header := { header.header with difficulty := d } } parent =
        PoaConsensus.validate_header_against_parent spec header parent) := by
  constructor
  · intro spec header signer
    simp only [PoaConsensus.validate_difficulty]
    split_ifs <;> simp_all
  · intro spec header parent d
    rfl

/-- C10 counterexample: a header with exactly 65 bytes of metadata verifies
via `BlockSealer::verify_signature` but `PoaConsensus::recover_signer`
fails with `ExtraDataTooShort` on the very same header. -/
theorem C10_counterexample :
    BlockSealer.verify_signature hashFn0 recover0 hdr65 = .ok addr1 ∧
    PoaConsensus.recover_signer hashFn0 recover0 hdr65 =
      .error (.ExtraDataTooShort 97 65) :=
  ⟨rfl, rfl⟩

/-- C10 (amended): the two seal-hash implementations agree on every header;
any identity returned by `PoaConsensus::recover_signer` is also returned by
`BlockSealer::verify_signature`; and the converse holds whenever the
metadata is at least 97 bytes long. -/
theorem C10_seal_paths_agree (hashFn : Header → Nat)
    (recover : Signature → Nat → Except String Address) :
    (∀ header, PoaConsensus.seal_hash hashFn header =
      BlockSealer.seal_hash hashFn header) ∧
    (∀ (header : Header) (a : Address),
      PoaConsensus.recover_signer hashFn recover header = .ok a →
      BlockSealer.verify_signature hashFn recover header = .ok a) ∧
    (∀ (header : Header) (a : Address), 97 ≤ header.extra_data.length →
      BlockSealer.verify_signature hashFn recover header = .ok a →
      PoaConsensus.recover_signer hashFn recover header = .ok a) := by
  refine ⟨fun header => seal_hash_impls_eq hashFn header, ?_, ?_⟩
  · intro header a h
    by_cases hlen : header.extra_data.length < 97
    · simp only [PoaConsensus.recover_signer, EXTRA_VANITY_LENGTH, EXTRA_SEAL_LENGTH] at h
      rw [if_pos (by omega)] at h
      exact absurd h (by simp)
    · rw [recover_signer_eq hashFn recover header (by omega)] at h
      rw [verify_signature_eq hashFn recover header (by omega)]
      rcases htf : Signature.try_from
          (header.extra_data.drop (header.extra_data.length - 65)) with e | sig
      · rw [htf] at h
        simp at h
      · simp only [htf] at h ⊢
        rcases hrec : recover sig (BlockSealer.seal_hash hashFn header) with e | b
        · rw [hrec] at h
          simp at h
        · simp only [hrec] at h ⊢
          have hba : b = a := by simpa using h
          rw [hba]
  · intro header a hlen h
    rw [verify_signature_eq hashFn recover header (by omega)] at h
    rw [recover_signer_eq hashFn recover header hlen]
    rcases htf : Signature.try_from
        (header.extra_data.drop (header.extra_data.length - 65)) with e | sig
    · rw [htf] at h
      simp at h
    · simp only [htf] at h ⊢
      rcases hrec : recover sig (BlockSealer.seal_hash hashFn header) with e | b
      · rw [hrec] at h
        simp at h
      · simp only [hrec] at h ⊢
        have hba : b = a := by simpa using h
        rw [hba]

/-- Witness for C10: the forward recovery direction at a concrete 97-byte
header. -/
theorem C10_seal_paths_agree_witness :
    BlockSealer.verify_signature hashFn0 recover0 hdr97 = .ok addr1 :=
  (C10_seal_paths_agree hashFn0 recover0).2.1 hdr97 addr1 rfl

/-- C2 counterexample: sealing a header with empty metadata yields a
65-byte metadata field, so `PoaConsensus::recover_signer` fails with
`ExtraDataTooShort` instead of returning the registered identity `addr1`
(here every structurally valid signature recovers to `addr1`). -/
theorem C2_counterexample :
    BlockSealer.seal_header hashFn0 sign0 store0 emptyExtraHeader addr1 =
      .ok sealedEmptyExtra ∧
    sealedEmptyExtra.extra_data.length = 65 ∧
    PoaConsensus.recover_signer hashFn0 recover0 sealedEmptyExtra =
      .error (.ExtraDataTooShort 97 65) :=
  ⟨rfl, rfl, rfl⟩

/-- C2 (amended): sign-then-verify round trip for every header whose
seal-stripped metadata keeps at least the 32-byte vanity prefix (so the
sealed metadata reaches the 97 bytes `recover_signer` requires): sealing
with a registered identity succeeds, and both `recover_signer` and
`verify_signature` return exactly that identity; `recover` and `sign` are
the external ECDSA primitives, assumed correct for each other. -/
theorem C2_round_trip {SK : Type} (hashFn : Header → Nat)
    (sign : SK → Nat → Signature)
    (recover : Signature → Nat → Except String Address) (addrOf : SK → Address)
    (hcrypto : ∀ sk h, recover (sign sk h) h = .ok (addrOf sk))
    (hrange : ∀ sk h, (sign sk h).r < 256 ^ 32 ∧ (sign sk h).s < 256 ^ 32)
    (m : SignerManager SK) (header : Header) (id : Address) (sk : SK)
    (hlookup : m.signers.lookup id = some sk) (haddr : addrOf sk = id)
    (hvanity : 32 ≤ (stripSealSpec header).extra_data.length) :
    BlockSealer.seal_header hashFn sign m header id =
      .ok (sealedWith hashFn sign header sk) ∧
    PoaConsensus.recover_signer hashFn recover (sealedWith hashFn sign header sk) =
      .ok id ∧
    BlockSealer.verify_signature hashFn recover (sealedWith hashFn sign header sk) =
      .ok id := by
  have hsb := signature_to_bytes_length
    (sign sk (BlockSealer.seal_hash hashFn header))
  have hlen : (sealedWith hashFn sign header sk).extra_data.length =
      (stripSealSpec header).extra_data.length + 65 := by
    rw [sealedWith_extra_data, List.length_append, hsb]
  have hdrop : (sealedWith hashFn sign header sk).extra_data.drop
      ((sealedWith hashFn sign header sk).extra_data.length - 65) =
      signature_to_bytes (sign sk (BlockSealer.seal_hash hashFn header)) := by
    rw [hlen, sealedWith_extra_data,
      (by omega : (stripSealSpec header).extra_data.length + 65 - 65 =
        (stripSealSpec header).extra_data.length)]
    exact drop_append_length _ _ _ rfl
  have htf : Signature.try_from ((sealedWith hashFn sign header sk).extra_data.drop
      ((sealedWith hashFn sign header sk).extra_data.length - 65)) =
      .ok (sign sk (BlockSealer.seal_hash hashFn header)) := by
    rw [hdrop]
    exact try_from_signature_to_bytes _
      (hrange sk (BlockSealer.seal_hash hashFn header)).1
      (hrange sk (BlockSealer.seal_hash hashFn header)).2
  have hrec : recover (sign sk (BlockSealer.seal_hash hashFn header))
      (BlockSealer.seal_hash hashFn (sealedWith hashFn sign header sk)) = .ok id := by
    rw [seal_hash_sealedWith, hcrypto, haddr]
  refine ⟨seal_header_ok hashFn sign m header id sk hlookup, ?_, ?_⟩
  · rw [recover_signer_eq hashFn recover _ (by omega)]
    simp only [htf, hrec]
  · rw [verify_signature_eq hashFn recover _ (by omega)]
    simp only [htf, hrec]

/-- Witness for C2 at the concrete scheme: seal `vanityHeader` with
`addr1`, recover `addr1` back through both recovery functions. -/
theorem C2_round_trip_witness :
    BlockSealer.seal_header hashFn0 sign0 store0 vanityHeader addr1 =
      .ok (sealedWith hashFn0 sign0 vanityHeader ()) ∧
    PoaConsensus.recover_signer hashFn0 recover0
      (sealedWith hashFn0 sign0 vanityHeader ()) = .ok addr1 ∧
    BlockSealer.verify_signature hashFn0 recover0
      (sealedWith hashFn0 sign0 vanityHeader ()) = .ok addr1 :=
  C2_round_trip hashFn0 sign0 recover0 (fun _ => addr1)
    (fun _ _ => rfl)
    (fun _ _ => ⟨(by decide : (3:Nat) < 256 ^ 32), (by decide : (4:Nat) < 256 ^ 32)⟩)
    store0 vanityHeader addr1 () rfl rfl (by decide)

/-- C9: re-sealing a sealed header replaces the trailing 65 seal bytes in
place: the metadata length is unchanged and the seal hash is invariant. -/
theorem C9_reseal_idempotent {SK : Type} (hashFn : Header → Nat)
    (sign : SK → Nat → Signature) (m : SignerManager SK)
    (header : Header) (id : Address) (sk : SK) (sealed1 sealed2 : Header)
    (hlookup : m.signers.lookup id = some sk)
    (h1 : BlockSealer.seal_header hashFn sign m header id = .ok sealed1)
    (h2 : BlockSealer.seal_header hashFn sign m sealed1 id = .ok sealed2) :
    sealed2.extra_data.length = sealed1.extra_data.length ∧
    BlockSealer.seal_hash hashFn sealed2 = BlockSealer.seal_hash hashFn sealed1 := by
  rw [seal_header_ok hashFn sign m header id sk hlookup] at h1
  injection h1 with h1
  rw [seal_header_ok hashFn sign m sealed1 id sk hlookup] at h2
  injection h2 with h2
  subst h2
  constructor
  · rw [sealedWith_extra_data, List.length_append, signature_to_bytes_length, ← h1,
      stripSealSpec_sealedWith, sealedWith_extra_data, List.length_append,
      signature_to_bytes_length]
  · rw [seal_hash_sealedWith]

/-- Witness for C9: sealing `vanityHeader` twice under the concrete scheme
keeps the metadata length and the seal hash. -/
theorem C9_reseal_idempotent_witness :
    sealedVanity2.extra_data.length = sealedVanity1.extra_data.length ∧
    BlockSealer.seal_hash hashFn0 sealedVanity2 =
      BlockSealer.seal_hash hashFn0 sealedVanity1 :=
  C9_reseal_idempotent hashFn0 sign0 store0 vanityHeader addr1 ()
    sealedVanity1 sealedVanity2 rfl rfl rfl

end Poa
